import Mathlib

/-!
Shallow embedding of the on-chain transaction construction and settlement
pipeline of the NFT marketplace storefront, from
src/src/pages/nfts/[address].tsx: the handlers buyNftTransaction and
cancelListingTransaction, the page-level derived values listing and isOwner,
the program-derived-address helpers of the external auction-house library,
and the instruction builders the page calls.

Addresses are base58 strings for wallet- and query-supplied keys; a
program-derived address is represented symbolically by a constructor naming
the derivation role applied to its seed inputs. This models the external
derivation routines (SHA-256 bump-seed search) as deterministic and
collision-free, which is the contract the program relies on.

The asynchronous effects of a handler run (login redirect, signature
request, submission, confirmation, snapshot re-fetch, toast notifications)
are modelled by an explicit Outcome record computed from an Env record that
fixes the result of each external call.
-/

namespace Marketplace

/-- Auction house record as selected by the GetNftPage query. -/
structure AuctionHouse where
  address : String
  treasuryMint : String
  auctionHouseTreasury : String
  treasuryWithdrawalDestination : String
  feeWithdrawalDestination : String
  authority : String
  auctionHouseFeeAccount : String
  deriving DecidableEq, Repr

/-- Marketplace record; only the auctionHouse field is read by the handlers. -/
structure Mkt where
  auctionHouse : AuctionHouse
  deriving DecidableEq, Repr

/-- NFT creator entry. -/
structure Creator where
  address : String
  deriving DecidableEq, Repr

/-- NFT owner entry with its associated token account. -/
structure NftOwner where
  address : String
  associatedTokenAccountAddress : String
  deriving DecidableEq, Repr

/-- Listing record as returned by the GET_NFT query. -/
structure Listing where
  address : String
  auctionHouse : String
  seller : String
  price : Nat
  tokenSize : Nat
  tradeState : String
  tradeStateBump : Nat
  deriving DecidableEq, Repr

/-- NFT record fields read by the handlers. -/
structure Nft where
  mintAddress : String
  owner : NftOwner
  creators : List Creator
  listings : List Listing
  deriving DecidableEq, Repr

/-- Result of the GET_NFT query (the data value of useQuery). -/
structure NftData where
  nft : Nft
  deriving DecidableEq, Repr

/-- Wallet adapter state: publicKey is the connected base58 key when present,
hasSignTransaction records whether a signing function is available. -/
structure Wallet where
  publicKey : Option String
  hasSignTransaction : Bool
  deriving DecidableEq, Repr

/-- Public keys: a raw constructor for base58 strings coming from the wallet
or the query layer, and one constructor per program-derived-address role of
the external auction-house and token-metadata libraries. Constructor
injectivity and distinctness model the collision-freedom of the derivation. -/
inductive Pubkey where
  | raw (base58 : String)
  | metadataAccount (tokenMint : Pubkey)
  | escrowPaymentAccount (auctionHouse wallet : Pubkey)
  | publicBidTradeState (wallet auctionHouse treasuryMint tokenMint : Pubkey)
      (buyerPrice tokenSize : Nat)
  | tradeState (wallet auctionHouse tokenAccount treasuryMint tokenMint : Pubkey)
      (buyerPrice tokenSize : Nat)
  | programAsSigner
  | associatedTokenAccount (tokenMint wallet : Pubkey)
  | bidReceipt (tradeState : Pubkey)
  | purchaseReceipt (sellerTradeState buyerTradeState : Pubkey)
  | auctionHouseProgramId
  | sysvarInstructions
  deriving DecidableEq, Repr

/-- Structural measure on keys, used to give every derived address a
concrete canonical bump value. -/
def Pubkey.depth : Pubkey → Nat
  | .raw s => s.length
  | .metadataAccount k => k.depth + 1
  | .escrowPaymentAccount a b => a.depth + b.depth + 2
  | .publicBidTradeState a b c d p t => a.depth + b.depth + c.depth + d.depth + p + t + 3
  | .tradeState a b c d e p t => a.depth + b.depth + c.depth + d.depth + e.depth + p + t + 4
  | .programAsSigner => 5
  | .associatedTokenAccount a b => a.depth + b.depth + 6
  | .bidReceipt a => a.depth + 7
  | .purchaseReceipt a b => a.depth + b.depth + 8
  | .auctionHouseProgramId => 9
  | .sysvarInstructions => 10

/-- Canonical bump seed of a derived address. The external library finds it
by a deterministic search over candidate bumps; we model it as a fixed
function of the derived address, which preserves exactly the property the
page relies on: same inputs, same bump. -/
def canonicalBump (a : Pubkey) : Nat := 255 - a.depth % 256

/-- MetadataProgram.findMetadataAccount. -/
def findMetadataAccount (tokenMint : Pubkey) : Pubkey × Nat :=
  let a := Pubkey.metadataAccount tokenMint
  (a, canonicalBump a)

/-- AuctionHouseProgram.findEscrowPaymentAccountAddress. -/
def findEscrowPaymentAccountAddress (auctionHouse wallet : Pubkey) : Pubkey × Nat :=
  let a := Pubkey.escrowPaymentAccount auctionHouse wallet
  (a, canonicalBump a)

/-- AuctionHouseProgram.findPublicBidTradeStateAddress. -/
def findPublicBidTradeStateAddress (wallet auctionHouse treasuryMint tokenMint : Pubkey)
    (buyerPrice tokenSize : Nat) : Pubkey × Nat :=
  let a := Pubkey.publicBidTradeState wallet auctionHouse treasuryMint tokenMint buyerPrice tokenSize
  (a, canonicalBump a)

/-- AuctionHouseProgram.findTradeStateAddress. -/
def findTradeStateAddress (wallet auctionHouse tokenAccount treasuryMint tokenMint : Pubkey)
    (buyerPrice tokenSize : Nat) : Pubkey × Nat :=
  let a := Pubkey.tradeState wallet auctionHouse tokenAccount treasuryMint tokenMint buyerPrice tokenSize
  (a, canonicalBump a)

/-- AuctionHouseProgram.findAuctionHouseProgramAsSignerAddress. -/
def findAuctionHouseProgramAsSignerAddress : Pubkey × Nat :=
  (Pubkey.programAsSigner, canonicalBump Pubkey.programAsSigner)

/-- AuctionHouseProgram.findAssociatedTokenAccountAddress. -/
def findAssociatedTokenAccountAddress (tokenMint wallet : Pubkey) : Pubkey × Nat :=
  let a := Pubkey.associatedTokenAccount tokenMint wallet
  (a, canonicalBump a)

/-- AuctionHouseProgram.findBidReceiptAddress. -/
def findBidReceiptAddress (buyerTradeState : Pubkey) : Pubkey × Nat :=
  let a := Pubkey.bidReceipt buyerTradeState
  (a, canonicalBump a)

/-- AuctionHouseProgram.findPurchaseReceiptAddress. -/
def findPurchaseReceiptAddress (sellerTradeState buyerTradeState : Pubkey) : Pubkey × Nat :=
  let a := Pubkey.purchaseReceipt sellerTradeState buyerTradeState
  (a, canonicalBump a)

/-- Account reference inside an instruction. -/
structure AccountMeta where
  pubkey : Pubkey
  isSigner : Bool
  isWritable : Bool
  deriving DecidableEq, Repr

/-- Serialized argument payload of an instruction, modelled symbolically:
one constructor per instruction type of the auction-house program, applied
to the argument values the page passes. The real serialization is injective
per instruction type (distinct discriminators), which the constructors
reflect. -/
inductive IData where
  | publicBuy (tradeStateBump escrowPaymentBump buyerPrice tokenSize : Nat)
  | printBidReceipt (receiptBump : Nat)
  | executeSale (escrowPaymentBump freeTradeStateBump programAsSignerBump buyerPrice tokenSize : Nat)
  | printPurchaseReceipt (purchaseReceiptBump : Nat)
  | cancel (buyerPrice tokenSize : Nat)
  | cancelListingReceipt
  deriving DecidableEq, Repr

/-- Instruction type tag. -/
inductive IKind where
  | publicBuy
  | printBidReceipt
  | executeSale
  | printPurchaseReceipt
  | cancel
  | cancelListingReceipt
  deriving DecidableEq, Repr

/-- Instruction type of a payload. -/
def IData.kind : IData → IKind
  | .publicBuy _ _ _ _ => .publicBuy
  | .printBidReceipt _ => .printBidReceipt
  | .executeSale _ _ _ _ _ => .executeSale
  | .printPurchaseReceipt _ => .printPurchaseReceipt
  | .cancel _ _ => .cancel
  | .cancelListingReceipt => .cancelListingReceipt

/-- An instruction: program id, ordered account list, serialized payload. -/
structure TransactionInstruction where
  programId : Pubkey
  keys : List AccountMeta
  data : IData
  deriving DecidableEq, Repr

/-- SPL token program id (fixed account appended by the library builders). -/
def tokenProgramId : Pubkey := .raw "TokenkegQfeZyiNwAJbNbGKPFXCWuBvf9Ss623VQ5DA"

/-- System program id. -/
def systemProgramId : Pubkey := .raw "11111111111111111111111111111111"

/-- Rent sysvar id. -/
def rentSysvarId : Pubkey := .raw "SysvarRent111111111111111111111111111111111"

/-- Associated token account program id. -/
def ataProgramId : Pubkey := .raw "ATokenGPvbdGVxr1b2hvZbsiqW5xWH25efTNsLJA8knL"

/-- Accounts object passed to createPublicBuyInstruction (line 331). -/
structure PublicBuyInstructionAccounts where
  wallet : Pubkey
  paymentAccount : Pubkey
  transferAuthority : Pubkey
  treasuryMint : Pubkey
  tokenAccount : Pubkey
  metadata : Pubkey
  escrowPaymentAccount : Pubkey
  authority : Pubkey
  auctionHouse : Pubkey
  auctionHouseFeeAccount : Pubkey
  buyerTradeState : Pubkey
  deriving DecidableEq, Repr

/-- Args object passed to createPublicBuyInstruction (line 344). -/
structure PublicBuyInstructionArgs where
  tradeStateBump : Nat
  escrowPaymentBump : Nat
  buyerPrice : Nat
  tokenSize : Nat
  deriving DecidableEq, Repr

/-- Model of the external library builder createPublicBuyInstruction:
fixed account order and flags per the auction-house program interface,
payload carrying the args. -/
def createPublicBuyInstruction (a : PublicBuyInstructionAccounts)
    (args : PublicBuyInstructionArgs) : TransactionInstruction :=
  { programId := .auctionHouseProgramId
    keys :=
      [ ⟨a.wallet, true, false⟩
      , ⟨a.paymentAccount, false, true⟩
      , ⟨a.transferAuthority, false, false⟩
      , ⟨a.treasuryMint, false, false⟩
      , ⟨a.tokenAccount, false, false⟩
      , ⟨a.metadata, false, false⟩
      , ⟨a.escrowPaymentAccount, false, true⟩
      , ⟨a.authority, false, false⟩
      , ⟨a.auctionHouse, false, false⟩
      , ⟨a.auctionHouseFeeAccount, false, true⟩
      , ⟨a.buyerTradeState, false, true⟩
      , ⟨tokenProgramId, false, false⟩
      , ⟨systemProgramId, false, false⟩
      , ⟨rentSysvarId, false, false⟩ ]
    data := .publicBuy args.tradeStateBump args.escrowPaymentBump args.buyerPrice args.tokenSize }

/-- Accounts object passed to createExecuteSaleInstruction (line 351). -/
structure ExecuteSaleInstructionAccounts where
  buyer : Pubkey
  seller : Pubkey
  tokenAccount : Pubkey
  tokenMint : Pubkey
  metadata : Pubkey
  treasuryMint : Pubkey
  escrowPaymentAccount : Pubkey
  sellerPaymentReceiptAccount : Pubkey
  buyerReceiptTokenAccount : Pubkey
  authority : Pubkey
  auctionHouse : Pubkey
  auctionHouseFeeAccount : Pubkey
  auctionHouseTreasury : Pubkey
  buyerTradeState : Pubkey
  sellerTradeState : Pubkey
  freeTradeState : Pubkey
  programAsSigner : Pubkey
  deriving DecidableEq, Repr

/-- Args object passed to createExecuteSaleInstruction (line 371). -/
structure ExecuteSaleInstructionArgs where
  escrowPaymentBump : Nat
  freeTradeStateBump : Nat
  programAsSignerBump : Nat
  buyerPrice : Nat
  tokenSize : Nat
  deriving DecidableEq, Repr

/-- Model of the external library builder createExecuteSaleInstruction. -/
def createExecuteSaleInstruction (a : ExecuteSaleInstructionAccounts)
    (args : ExecuteSaleInstructionArgs) : TransactionInstruction :=
  { programId := .auctionHouseProgramId
    keys :=
      [ ⟨a.buyer, false, true⟩
      , ⟨a.seller, false, true⟩
      , ⟨a.tokenAccount, false, true⟩
      , ⟨a.tokenMint, false, false⟩
      , ⟨a.metadata, false, false⟩
      , ⟨a.treasuryMint, false, false⟩
      , ⟨a.escrowPaymentAccount, false, true⟩
      , ⟨a.sellerPaymentReceiptAccount, false, true⟩
      , ⟨a.buyerReceiptTokenAccount, false, true⟩
      , ⟨a.authority, false, false⟩
      , ⟨a.auctionHouse, false, false⟩
      , ⟨a.auctionHouseFeeAccount, false, true⟩
      , ⟨a.auctionHouseTreasury, false, true⟩
      , ⟨a.buyerTradeState, false, true⟩
      , ⟨a.sellerTradeState, false, true⟩
      , ⟨a.freeTradeState, false, true⟩
      , ⟨tokenProgramId, false, false⟩
      , ⟨systemProgramId, false, false⟩
      , ⟨ataProgramId, false, false⟩
      , ⟨a.programAsSigner, false, false⟩
      , ⟨rentSysvarId, false, false⟩ ]
    data := .executeSale args.escrowPaymentBump args.freeTradeStateBump
      args.programAsSignerBump args.buyerPrice args.tokenSize }

/-- Accounts object passed to createPrintBidReceiptInstruction (line 379). -/
structure PrintBidReceiptAccounts where
  bookkeeper : Pubkey
  receipt : Pubkey
  instruction : Pubkey
  deriving DecidableEq, Repr

/-- Args object passed to createPrintBidReceiptInstruction (line 384). -/
structure PrintBidReceiptArgs where
  receiptBump : Nat
  deriving DecidableEq, Repr

/-- Model of the external library builder createPrintBidReceiptInstruction. -/
def createPrintBidReceiptInstruction (a : PrintBidReceiptAccounts)
    (args : PrintBidReceiptArgs) : TransactionInstruction :=
  { programId := .auctionHouseProgramId
    keys :=
      [ ⟨a.receipt, false, true⟩
      , ⟨a.bookkeeper, true, false⟩
      , ⟨systemProgramId, false, false⟩
      , ⟨rentSysvarId, false, false⟩
      , ⟨a.instruction, false, false⟩ ]
    data := .printBidReceipt args.receiptBump }

/-- Accounts object passed to createPrintPurchaseReceiptInstruction (line 388). -/
structure PrintPurchaseReceiptAccounts where
  bookkeeper : Pubkey
  purchaseReceipt : Pubkey
  bidReceipt : Pubkey
  listingReceipt : Pubkey
  instruction : Pubkey
  deriving DecidableEq, Repr

/-- Args object passed to createPrintPurchaseReceiptInstruction (line 395). -/
structure PrintPurchaseReceiptArgs where
  purchaseReceiptBump : Nat
  deriving DecidableEq, Repr

/-- Model of the external library builder createPrintPurchaseReceiptInstruction. -/
def createPrintPurchaseReceiptInstruction (a : PrintPurchaseReceiptAccounts)
    (args : PrintPurchaseReceiptArgs) : TransactionInstruction :=
  { programId := .auctionHouseProgramId
    keys :=
      [ ⟨a.purchaseReceipt, false, true⟩
      , ⟨a.listingReceipt, false, true⟩
      , ⟨a.bidReceipt, false, true⟩
      , ⟨a.bookkeeper, true, false⟩
      , ⟨systemProgramId, false, false⟩
      , ⟨rentSysvarId, false, false⟩
      , ⟨a.instruction, false, false⟩ ]
    data := .printPurchaseReceipt args.purchaseReceiptBump }

/-- Accounts object passed to createCancelInstruction (line 501). -/
structure CancelInstructionAccountsT where
  wallet : Pubkey
  tokenAccount : Pubkey
  tokenMint : Pubkey
  authority : Pubkey
  auctionHouse : Pubkey
  auctionHouseFeeAccount : Pubkey
  tradeState : Pubkey
  deriving DecidableEq, Repr

/-- Args object passed to createCancelInstruction (line 510). -/
structure CancelInstructionArgs where
  buyerPrice : Nat
  tokenSize : Nat
  deriving DecidableEq, Repr

/-- Model of the external library builder createCancelInstruction. -/
def createCancelInstruction (a : CancelInstructionAccountsT)
    (args : CancelInstructionArgs) : TransactionInstruction :=
  { programId := .auctionHouseProgramId
    keys :=
      [ ⟨a.wallet, false, true⟩
      , ⟨a.tokenAccount, false, true⟩
      , ⟨a.tokenMint, false, false⟩
      , ⟨a.authority, false, false⟩
      , ⟨a.auctionHouse, false, false⟩
      , ⟨a.auctionHouseFeeAccount, false, true⟩
      , ⟨a.tradeState, false, true⟩
      , ⟨tokenProgramId, false, false⟩ ]
    data := .cancel args.buyerPrice args.tokenSize }

/-- Accounts object passed to createCancelListingReceiptInstruction (line 515). -/
structure CancelListingReceiptAccounts where
  receipt : Pubkey
  instruction : Pubkey
  deriving DecidableEq, Repr

/-- Model of the external library builder createCancelListingReceiptInstruction. -/
def createCancelListingReceiptInstruction (a : CancelListingReceiptAccounts) :
    TransactionInstruction :=
  { programId := .auctionHouseProgramId
    keys :=
      [ ⟨a.receipt, false, true⟩
      , ⟨systemProgramId, false, false⟩
      , ⟨a.instruction, false, false⟩ ]
    data := .cancelListingReceipt }

/-- pickAuctionHouse (line 75). -/
def pickAuctionHouse (l : Listing) : String := l.auctionHouse

/-- isMarketplaceAuctionHouse (line 240): equality with the marketplace
auction-house address. -/
def isMarketplaceAuctionHouse (m : Mkt) (a : String) : Bool :=
  a == m.auctionHouse.address

/-- The listing value of the page (lines 243 to 245): the first listing of
the snapshot whose auctionHouse field equals the marketplace auction-house
address; none when no snapshot is loaded. -/
def pageListing (m : Mkt) (d : Option NftData) : Option Listing :=
  (match d with
    | some dd => dd.nft.listings
    | none => []).find? (fun l => isMarketplaceAuctionHouse m (pickAuctionHouse l))

/-- The isOwner value of the page (line 241): equality of the snapshot owner
address with the connected wallet key, both optional; in the handlers the
trailing or-null only converts false to null, which the guards treat the
same, so a Bool captures it. -/
def pageIsOwner (d : Option NftData) (publicKey : Option String) : Bool :=
  (d.map fun dd => dd.nft.owner.address) == publicKey

/-- Resolved addresses and bumps computed by buyNftTransaction before
building instructions (lines 269 to 329), as one record. -/
structure BuyCtx where
  auctionHouse : Pubkey
  authority : Pubkey
  auctionHouseFeeAccount : Pubkey
  treasuryMint : Pubkey
  seller : Pubkey
  tokenMint : Pubkey
  auctionHouseTreasury : Pubkey
  listingReceipt : Pubkey
  sellerPaymentReceiptAccount : Pubkey
  sellerTradeState : Pubkey
  buyerPrice : Nat
  tokenAccount : Pubkey
  metadata : Pubkey
  escrowPaymentAccount : Pubkey
  escrowPaymentBump : Nat
  buyerTradeState : Pubkey
  tradeStateBump : Nat
  freeTradeState : Pubkey
  freeTradeStateBump : Nat
  programAsSigner : Pubkey
  programAsSignerBump : Nat
  buyerReceiptTokenAccount : Pubkey
  bidReceipt : Pubkey
  bidReceiptBump : Nat
  purchaseReceipt : Pubkey
  purchaseReceiptBump : Nat
  deriving DecidableEq, Repr

/-- Address resolution of buyNftTransaction (lines 269 to 329). -/
def buyCtx (m : Mkt) (pk : String) (data : NftData) (listing : Listing) : BuyCtx :=
  let auctionHouse := Pubkey.raw m.auctionHouse.address
  let authority := Pubkey.raw m.auctionHouse.authority
  let auctionHouseFeeAccount := Pubkey.raw m.auctionHouse.auctionHouseFeeAccount
  let treasuryMint := Pubkey.raw m.auctionHouse.treasuryMint
  let seller := Pubkey.raw listing.seller
  let tokenMint := Pubkey.raw data.nft.mintAddress
  let auctionHouseTreasury := Pubkey.raw m.auctionHouse.auctionHouseTreasury
  let listingReceipt := Pubkey.raw listing.address
  let sellerPaymentReceiptAccount := Pubkey.raw listing.seller
  let sellerTradeState := Pubkey.raw listing.tradeState
  let buyerPrice := listing.price
  let tokenAccount := Pubkey.raw data.nft.owner.associatedTokenAccountAddress
  let wallet := Pubkey.raw pk
  let metadata := (findMetadataAccount tokenMint).1
  let escrowPair := findEscrowPaymentAccountAddress auctionHouse wallet
  let bidPair := findPublicBidTradeStateAddress wallet auctionHouse treasuryMint tokenMint buyerPrice 1
  let freePair := findTradeStateAddress seller auctionHouse tokenAccount treasuryMint tokenMint 0 1
  let pasPair := findAuctionHouseProgramAsSignerAddress
  let brtaPair := findAssociatedTokenAccountAddress tokenMint wallet
  let bidReceiptPair := findBidReceiptAddress bidPair.1
  let purchasePair := findPurchaseReceiptAddress sellerTradeState bidPair.1
  { auctionHouse := auctionHouse
    authority := authority
    auctionHouseFeeAccount := auctionHouseFeeAccount
    treasuryMint := treasuryMint
    seller := seller
    tokenMint := tokenMint
    auctionHouseTreasury := auctionHouseTreasury
    listingReceipt := listingReceipt
    sellerPaymentReceiptAccount := sellerPaymentReceiptAccount
    sellerTradeState := sellerTradeState
    buyerPrice := buyerPrice
    tokenAccount := tokenAccount
    metadata := metadata
    escrowPaymentAccount := escrowPair.1
    escrowPaymentBump := escrowPair.2
    buyerTradeState := bidPair.1
    tradeStateBump := bidPair.2
    freeTradeState := freePair.1
    freeTradeStateBump := freePair.2
    programAsSigner := pasPair.1
    programAsSignerBump := pasPair.2
    buyerReceiptTokenAccount := brtaPair.1
    bidReceipt := bidReceiptPair.1
    bidReceiptBump := bidReceiptPair.2
    purchaseReceipt := purchasePair.1
    purchaseReceiptBump := purchasePair.2 }

/-- The publicBuy instruction of the buy handler (lines 331 to 349 and 399). -/
def buyPublicBuy (m : Mkt) (pk : String) (data : NftData) (listing : Listing) :
    TransactionInstruction :=
  let c := buyCtx m pk data listing
  createPublicBuyInstruction
    { wallet := .raw pk
      paymentAccount := .raw pk
      transferAuthority := .raw pk
      treasuryMint := c.treasuryMint
      tokenAccount := c.tokenAccount
      metadata := c.metadata
      escrowPaymentAccount := c.escrowPaymentAccount
      authority := c.authority
      auctionHouse := c.auctionHouse
      auctionHouseFeeAccount := c.auctionHouseFeeAccount
      buyerTradeState := c.buyerTradeState }
    { tradeStateBump := c.tradeStateBump
      escrowPaymentBump := c.escrowPaymentBump
      buyerPrice := c.buyerPrice
      tokenSize := 1 }

/-- The printBidReceipt instruction of the buy handler (lines 379 to 386 and 403). -/
def buyPrintBidReceipt (m : Mkt) (pk : String) (data : NftData) (listing : Listing) :
    TransactionInstruction :=
  let c := buyCtx m pk data listing
  createPrintBidReceiptInstruction
    { bookkeeper := .raw pk
      receipt := c.bidReceipt
      instruction := .sysvarInstructions }
    { receiptBump := c.bidReceiptBump }

/-- The base executeSale instruction of the buy handler (lines 351 to 377
and 407), before the creator-account augmentation. -/
def buyBaseExecuteSale (m : Mkt) (pk : String) (data : NftData) (listing : Listing) :
    TransactionInstruction :=
  let c := buyCtx m pk data listing
  createExecuteSaleInstruction
    { buyer := .raw pk
      seller := c.seller
      tokenAccount := c.tokenAccount
      tokenMint := c.tokenMint
      metadata := c.metadata
      treasuryMint := c.treasuryMint
      escrowPaymentAccount := c.escrowPaymentAccount
      sellerPaymentReceiptAccount := c.sellerPaymentReceiptAccount
      buyerReceiptTokenAccount := c.buyerReceiptTokenAccount
      authority := c.authority
      auctionHouse := c.auctionHouse
      auctionHouseFeeAccount := c.auctionHouseFeeAccount
      auctionHouseTreasury := c.auctionHouseTreasury
      buyerTradeState := c.buyerTradeState
      sellerTradeState := c.sellerTradeState
      freeTradeState := c.freeTradeState
      programAsSigner := c.programAsSigner }
    { escrowPaymentBump := c.escrowPaymentBump
      freeTradeStateBump := c.freeTradeStateBump
      programAsSignerBump := c.programAsSignerBump
      buyerPrice := c.buyerPrice
      tokenSize := 1 }

/-- The augmented executeSale instruction actually added to the transaction
(lines 422 to 435): a fresh TransactionInstruction with the auction-house
program id, the data of the base executeSale instruction, and its keys
concatenated with one non-signer writable account per NFT creator. -/
def buyExecuteSaleAugmented (m : Mkt) (pk : String) (data : NftData) (listing : Listing) :
    TransactionInstruction :=
  let base := buyBaseExecuteSale m pk data listing
  { programId := .auctionHouseProgramId
    data := base.data
    keys := base.keys ++ data.nft.creators.map fun c =>
      { pubkey := Pubkey.raw c.address, isSigner := false, isWritable := true } }

/-- The printPurchaseReceipt instruction of the buy handler (lines 388 to
397 and 411). -/
def buyPrintPurchaseReceipt (m : Mkt) (pk : String) (data : NftData) (listing : Listing) :
    TransactionInstruction :=
  let c := buyCtx m pk data listing
  createPrintPurchaseReceiptInstruction
    { bookkeeper := .raw pk
      purchaseReceipt := c.purchaseReceipt
      bidReceipt := c.bidReceipt
      listingReceipt := c.listingReceipt
      instruction := .sysvarInstructions }
    { purchaseReceiptBump := c.purchaseReceiptBump }

/-- The ordered instruction list of the buy transaction (lines 417 to 436):
publicBuy, printBidReceipt, augmented executeSale, printPurchaseReceipt. -/
def buyInstructions (m : Mkt) (pk : String) (data : NftData) (listing : Listing) :
    List TransactionInstruction :=
  [ buyPublicBuy m pk data listing
  , buyPrintBidReceipt m pk data listing
  , buyExecuteSaleAugmented m pk data listing
  , buyPrintPurchaseReceipt m pk data listing ]

/-- The accounts object of the cancel instruction (lines 489 to 509): the
trade state is freshly derived from the connected wallet key; the stored
listing tradeState field is not consulted. -/
def cancelInstructionAccounts (m : Mkt) (pk : String) (data : NftData) (listing : Listing) :
    CancelInstructionAccountsT :=
  let auctionHouse := Pubkey.raw m.auctionHouse.address
  let authority := Pubkey.raw m.auctionHouse.authority
  let auctionHouseFeeAccount := Pubkey.raw m.auctionHouse.auctionHouseFeeAccount
  let tokenMint := Pubkey.raw data.nft.mintAddress
  let treasuryMint := Pubkey.raw m.auctionHouse.treasuryMint
  let tokenAccount := Pubkey.raw data.nft.owner.associatedTokenAccountAddress
  let buyerPrice := listing.price
  let tradeStatePair := findTradeStateAddress (.raw pk) auctionHouse tokenAccount
    treasuryMint tokenMint buyerPrice 1
  { wallet := .raw pk
    tokenAccount := tokenAccount
    tokenMint := tokenMint
    authority := authority
    auctionHouse := auctionHouse
    auctionHouseFeeAccount := auctionHouseFeeAccount
    tradeState := tradeStatePair.1 }

/-- The ordered instruction list of the cancel transaction (lines 520 to
529): cancel, cancelListingReceipt. -/
def cancelInstructions (m : Mkt) (pk : String) (data : NftData) (listing : Listing) :
    List TransactionInstruction :=
  [ createCancelInstruction (cancelInstructionAccounts m pk data listing)
      { buyerPrice := listing.price, tokenSize := 1 }
  , createCancelListingReceiptInstruction
      { receipt := .raw listing.address, instruction := .sysvarInstructions } ]

/-- Outcome of one external call in the run environment. -/
inductive CallResult where
  | ok
  | fail (msg : String)
  deriving DecidableEq, Repr

/-- Fixed results of the external calls a handler run makes: wallet signing,
raw-transaction submission, and confirmation await. -/
structure Env where
  signResult : CallResult
  sendResult : CallResult
  confirmResult : CallResult
  deriving DecidableEq, Repr

/-- A toast notification (react-toastify): plain info, error, or success. -/
inductive Toast where
  | info (msg : String)
  | error (msg : String)
  | success (msg : String)
  deriving DecidableEq, Repr

/-- Observable outcome of one handler run: whether the login flow was
triggered, the assembled transaction instruction list when a transaction
was built, which external calls were reached, how many times refetch ran,
and the emitted toasts in order. -/
structure Outcome where
  login : Bool
  tx : Option (List TransactionInstruction)
  signRequested : Bool
  sendRequested : Bool
  confirmRequested : Bool
  refetchCount : Nat
  toasts : List Toast
  deriving DecidableEq, Repr

/-- Outcome of the wallet-unavailable branch (lines 260 to 263 and 468 to
471): login is triggered and nothing else happens. -/
def Outcome.loginOnly : Outcome :=
  { login := true, tx := none, signRequested := false, sendRequested := false
    confirmRequested := false, refetchCount := 0, toasts := [] }

/-- Outcome of a guard abort (lines 265 to 267 and 473 to 475): the handler
returns silently with no transaction, no external call, and no toast. -/
def Outcome.silent : Outcome :=
  { login := false, tx := none, signRequested := false, sendRequested := false
    confirmRequested := false, refetchCount := 0, toasts := [] }

/-- Message of the info toast emitted before submission (lines 453 and 546). -/
def sendingMsg : String := "Sending the transaction to Solana."

/-- Message of the success toast emitted after confirmation (lines 461 and 554). -/
def confirmedMsg : String := "The transaction was confirmed."

/-- The shared tail of both handlers (lines 441 to 464 and 534 to 557):
request a signature inside the first try block, returning with an error
toast if signing fails; then inside the second try block emit the sending
toast, submit, await confirmation, refetch, and emit the success toast,
with any failure of the block caught and surfaced as an error toast. -/
def runPipeline (txInstrs : List TransactionInstruction) (env : Env) : Outcome :=
  match env.signResult with
  | .fail msg =>
    { login := false, tx := some txInstrs, signRequested := true
      sendRequested := false, confirmRequested := false, refetchCount := 0
      toasts := [.error msg] }
  | .ok =>
    match env.sendResult with
    | .fail msg =>
      { login := false, tx := some txInstrs, signRequested := true
        sendRequested := true, confirmRequested := false, refetchCount := 0
        toasts := [.info sendingMsg, .error msg] }
    | .ok =>
      match env.confirmResult with
      | .fail msg =>
        { login := false, tx := some txInstrs, signRequested := true
          sendRequested := true, confirmRequested := true, refetchCount := 0
          toasts := [.info sendingMsg, .error msg] }
      | .ok =>
        { login := false, tx := some txInstrs, signRequested := true
          sendRequested := true, confirmRequested := true, refetchCount := 1
          toasts := [.info sendingMsg, .success confirmedMsg] }

/-- buyNftTransaction (lines 259 to 465): wallet guard, precondition guard
(no listing for the marketplace auction house, viewer is owner, or no
snapshot), then build the four-instruction transaction and run the
signing and settlement pipeline. -/
def buyNftTransaction (m : Mkt) (w : Wallet) (d : Option NftData) (env : Env) : Outcome :=
  match w.publicKey, w.hasSignTransaction with
  | none, _ => .loginOnly
  | some _, false => .loginOnly
  | some pk, true =>
    match pageListing m d, d with
    | some listing, some data =>
      if pageIsOwner (some data) (some pk) then .silent
      else runPipeline (buyInstructions m pk data listing) env
    | _, _ => .silent

/-- cancelListingTransaction (lines 467 to 558): wallet guard, precondition
guard (no listing, viewer is not the owner, or no snapshot), then build the
two-instruction transaction and run the signing and settlement pipeline. -/
def cancelListingTransaction (m : Mkt) (w : Wallet) (d : Option NftData) (env : Env) : Outcome :=
  match w.publicKey, w.hasSignTransaction with
  | none, _ => .loginOnly
  | some _, false => .loginOnly
  | some pk, true =>
    match pageListing m d, d with
    | some listing, some data =>
      if pageIsOwner (some data) (some pk) then
        runPipeline (cancelInstructions m pk data listing) env
      else .silent
    | _, _ => .silent

/-- The assembled transaction of a pipeline run is recorded unchanged in
the outcome, whatever the environment does. -/
theorem runPipeline_tx (txInstrs : List TransactionInstruction) (env : Env) :
    (runPipeline txInstrs env).tx = some txInstrs := by
  rcases env with ⟨sr, dr, cr⟩
  cases sr <;> cases dr <;> cases cr <;> rfl

/-- Every pipeline run requests a signature. -/
theorem runPipeline_signRequested (txInstrs : List TransactionInstruction) (env : Env) :
    (runPipeline txInstrs env).signRequested = true := by
  rcases env with ⟨sr, dr, cr⟩
  cases sr <;> cases dr <;> cases cr <;> rfl

/-- When the wallet guard and the buy precondition guard pass, the buy
handler is exactly a pipeline run over the four buy instructions. -/
theorem buy_run_of_guards (m : Mkt) (w : Wallet) (d : Option NftData) (env : Env)
    (pk : String) (data : NftData) (listing : Listing)
    (hpk : w.publicKey = some pk) (hsig : w.hasSignTransaction = true)
    (hd : d = some data) (hl : pageListing m d = some listing)
    (hown : pageIsOwner d w.publicKey = false) :
    buyNftTransaction m w d env = runPipeline (buyInstructions m pk data listing) env := by
  subst hd
  rcases w with ⟨wpk, wsig⟩
  have hpk2 : wpk = some pk := hpk
  have hsig2 : wsig = true := hsig
  subst hpk2 hsig2
  have hown2 : pageIsOwner (some data) (some pk) = false := hown
  simp only [buyNftTransaction, hl, hown2]
  rfl

/-- When the wallet guard and the cancel precondition guard pass, the cancel
handler is exactly a pipeline run over the two cancel instructions. -/
theorem cancel_run_of_guards (m : Mkt) (w : Wallet) (d : Option NftData) (env : Env)
    (pk : String) (data : NftData) (listing : Listing)
    (hpk : w.publicKey = some pk) (hsig : w.hasSignTransaction = true)
    (hd : d = some data) (hl : pageListing m d = some listing)
    (hown : pageIsOwner d w.publicKey = true) :
    cancelListingTransaction m w d env = runPipeline (cancelInstructions m pk data listing) env := by
  subst hd
  rcases w with ⟨wpk, wsig⟩
  have hpk2 : wpk = some pk := hpk
  have hsig2 : wsig = true := hsig
  subst hpk2 hsig2
  have hown2 : pageIsOwner (some data) (some pk) = true := hown
  simp only [cancelListingTransaction, hl, hown2]
  rfl

/-- C1: for every Buy attempt whose preconditions hold the assembled
transaction holds exactly four instructions in the fixed order public-buy,
print-bid-receipt, execute-sale, print-purchase-receipt, and for every
Cancel attempt whose preconditions hold exactly two instructions in the
fixed order cancel, cancel-listing-receipt; nothing is reordered or
dropped. -/
theorem buy_cancel_instruction_order (m : Mkt) (w : Wallet) (d : Option NftData) (env : Env)
    (pk : String) (data : NftData) (listing : Listing)
    (hpk : w.publicKey = some pk) (hsig : w.hasSignTransaction = true)
    (hd : d = some data) (hl : pageListing m d = some listing) :
    (pageIsOwner d w.publicKey = false →
      (buyNftTransaction m w d env).tx = some (buyInstructions m pk data listing) ∧
      (buyInstructions m pk data listing).map (fun i => i.data.kind) =
        [.publicBuy, .printBidReceipt, .executeSale, .printPurchaseReceipt]) ∧
    (pageIsOwner d w.publicKey = true →
      (cancelListingTransaction m w d env).tx = some (cancelInstructions m pk data listing) ∧
      (cancelInstructions m pk data listing).map (fun i => i.data.kind) =
        [.cancel, .cancelListingReceipt]) := by
  constructor
  · intro hown
    rw [buy_run_of_guards m w d env pk data listing hpk hsig hd hl hown]
    exact ⟨runPipeline_tx _ _, rfl⟩
  · intro hown
    rw [cancel_run_of_guards m w d env pk data listing hpk hsig hd hl hown]
    exact ⟨runPipeline_tx _ _, rfl⟩

/-- Sample auction house used by concrete witnesses. -/
def sampleAH : AuctionHouse :=
  { address := "AH", treasuryMint := "TRM", auctionHouseTreasury := "AHT"
    treasuryWithdrawalDestination := "TWD", feeWithdrawalDestination := "FWD"
    authority := "AUTH", auctionHouseFeeAccount := "FEE" }

/-- Sample marketplace used by concrete witnesses. -/
def sampleMkt : Mkt := ⟨sampleAH⟩

/-- Sample listing with a given seller, priced at the scenario price of
2500000000 in the smallest unit, on the marketplace auction house. -/
def sampleListing (seller : String) : Listing :=
  { address := "LRCPT", auctionHouse := "AH", seller := seller
    price := 2500000000, tokenSize := 1, tradeState := "TSTATE", tradeStateBump := 250 }

/-- Sample NFT snapshot with a given owner and one creator, listing
included. -/
def sampleData (ownerAddr : String) (ls : List Listing) : NftData :=
  ⟨{ mintAddress := "MINT"
     owner := { address := ownerAddr, associatedTokenAccountAddress := "ATA" }
     creators := [⟨"CREATOR1"⟩]
     listings := ls }⟩

/-- Environment in which every external call succeeds. -/
def envOk : Env := ⟨.ok, .ok, .ok⟩

/-- C1 witness: a concrete buyer distinct from the seller gets the four buy
instructions, and the seller as viewer gets the two cancel instructions. -/
theorem buy_cancel_instruction_order_witness :
    (buyNftTransaction sampleMkt ⟨some "buyer1", true⟩
        (some (sampleData "seller1" [sampleListing "seller1"])) envOk).tx =
      some (buyInstructions sampleMkt "buyer1"
        (sampleData "seller1" [sampleListing "seller1"]) (sampleListing "seller1")) ∧
    (cancelListingTransaction sampleMkt ⟨some "seller1", true⟩
        (some (sampleData "seller1" [sampleListing "seller1"])) envOk).tx =
      some (cancelInstructions sampleMkt "seller1"
        (sampleData "seller1" [sampleListing "seller1"]) (sampleListing "seller1")) :=
  ⟨((buy_cancel_instruction_order sampleMkt ⟨some "buyer1", true⟩
      (some (sampleData "seller1" [sampleListing "seller1"])) envOk "buyer1"
      (sampleData "seller1" [sampleListing "seller1"]) (sampleListing "seller1")
      rfl rfl rfl (by decide)).1 (by decide)).1,
   ((buy_cancel_instruction_order sampleMkt ⟨some "seller1", true⟩
      (some (sampleData "seller1" [sampleListing "seller1"])) envOk "seller1"
      (sampleData "seller1" [sampleListing "seller1"]) (sampleListing "seller1")
      rfl rfl rfl (by decide)).2 (by decide)).1⟩

/-- C2: the execute-sale instruction placed in the buy transaction has the
account list of the base execute-sale instruction extended by exactly one
non-signer writable entry per NFT creator in creator-list order, and keeps
the program id and payload of the base instruction. -/
theorem execute_sale_account_augmentation (m : Mkt) (pk : String) (data : NftData)
    (listing : Listing) :
    (buyInstructions m pk data listing)[2]? =
      some { programId := (buyBaseExecuteSale m pk data listing).programId
             keys := (buyBaseExecuteSale m pk data listing).keys ++
               data.nft.creators.map (fun c =>
                 { pubkey := Pubkey.raw c.address, isSigner := false, isWritable := true })
             data := (buyBaseExecuteSale m pk data listing).data } ∧
    (buyBaseExecuteSale m pk data listing).programId = Pubkey.auctionHouseProgramId := by
  exact ⟨rfl, rfl⟩

/-- Settlement reconciliation contract of one handler outcome against the
environment it ran in: refetch runs exactly once exactly when confirmation
was reached and succeeded, in which case the toasts end with the success
notification; and a failure of the signing, submission, or confirmation
call leaves the refetch count at zero and surfaces an error toast carrying
the message of the underlying error. -/
def ReconcilerOk (o : Outcome) (env : Env) : Prop :=
  (o.refetchCount = 1 ↔ (o.confirmRequested = true ∧ env.confirmResult = .ok)) ∧
  (o.confirmRequested = true → env.confirmResult = .ok →
    o.toasts = [.info sendingMsg, .success confirmedMsg]) ∧
  (∀ msg, o.signRequested = true → env.signResult = .fail msg →
    o.refetchCount = 0 ∧ o.toasts = [.error msg]) ∧
  (∀ msg, o.sendRequested = true → env.sendResult = .fail msg →
    o.refetchCount = 0 ∧ o.toasts = [.info sendingMsg, .error msg]) ∧
  (∀ msg, o.confirmRequested = true → env.confirmResult = .fail msg →
    o.refetchCount = 0 ∧ o.toasts = [.info sendingMsg, .error msg])

/-- Every pipeline run satisfies the reconciliation contract. -/
theorem runPipeline_reconciles (txInstrs : List TransactionInstruction) (env : Env) :
    ReconcilerOk (runPipeline txInstrs env) env := by
  rcases env with ⟨sr, dr, cr⟩
  cases sr <;> cases dr <;> cases cr <;>
    simp [ReconcilerOk, runPipeline]

/-- A silently aborted run satisfies the reconciliation contract. -/
theorem silent_reconciles (env : Env) : ReconcilerOk Outcome.silent env := by
  simp [ReconcilerOk, Outcome.silent]

/-- A login-redirected run satisfies the reconciliation contract. -/
theorem loginOnly_reconciles (env : Env) : ReconcilerOk Outcome.loginOnly env := by
  simp [ReconcilerOk, Outcome.loginOnly]

/-- Every buy handler run is a login redirect, a silent abort, or a
pipeline run over some instruction list. -/
theorem buy_outcome_cases (m : Mkt) (w : Wallet) (d : Option NftData) (env : Env) :
    buyNftTransaction m w d env = .loginOnly ∨ buyNftTransaction m w d env = .silent ∨
      ∃ txInstrs, buyNftTransaction m w d env = runPipeline txInstrs env := by
  rcases w with ⟨wpk, wsig⟩
  rcases wpk with _ | pk
  · exact Or.inl rfl
  · rcases wsig with _ | _
    · exact Or.inl rfl
    · rcases hl : pageListing m d with _ | listing
      · rcases d with _ | data <;> simp [buyNftTransaction, hl]
      · rcases d with _ | data
        · simp [buyNftTransaction, hl]
        · rcases hown : pageIsOwner (some data) (some pk) with _ | _
          · refine Or.inr (Or.inr ⟨buyInstructions m pk data listing, ?_⟩)
            simp [buyNftTransaction, hl, hown]
          · refine Or.inr (Or.inl ?_)
            simp [buyNftTransaction, hl, hown]

/-- Every cancel handler run is a login redirect, a silent abort, or a
pipeline run over some instruction list. -/
theorem cancel_outcome_cases (m : Mkt) (w : Wallet) (d : Option NftData) (env : Env) :
    cancelListingTransaction m w d env = .loginOnly ∨
      cancelListingTransaction m w d env = .silent ∨
      ∃ txInstrs, cancelListingTransaction m w d env = runPipeline txInstrs env := by
  rcases w with ⟨wpk, wsig⟩
  rcases wpk with _ | pk
  · exact Or.inl rfl
  · rcases wsig with _ | _
    · exact Or.inl rfl
    · rcases hl : pageListing m d with _ | listing
      · rcases d with _ | data <;> simp [cancelListingTransaction, hl]
      · rcases d with _ | data
        · simp [cancelListingTransaction, hl]
        · rcases hown : pageIsOwner (some data) (some pk) with _ | _
          · refine Or.inr (Or.inl ?_)
            simp [cancelListingTransaction, hl, hown]
          · refine Or.inr (Or.inr ⟨cancelInstructions m pk data listing, ?_⟩)
            simp [cancelListingTransaction, hl, hown]

/-- C3: for every pipeline run of either handler, the snapshot re-fetch is
invoked exactly once if and only if confirmation succeeds, followed by a
success notification; on a failure during signing, submission, or
confirmation the re-fetch never runs and a failure notification carrying
the message of the underlying error is emitted instead. -/
theorem pipeline_refetch_reconciliation (m : Mkt) (w : Wallet) (d : Option NftData)
    (env : Env) :
    ReconcilerOk (buyNftTransaction m w d env) env ∧
    ReconcilerOk (cancelListingTransaction m w d env) env := by
  constructor
  · rcases buy_outcome_cases m w d env with h | h | ⟨txInstrs, h⟩ <;> rw [h]
    · exact loginOnly_reconciles env
    · exact silent_reconciles env
    · exact runPipeline_reconciles txInstrs env
  · rcases cancel_outcome_cases m w d env with h | h | ⟨txInstrs, h⟩ <;> rw [h]
    · exact loginOnly_reconciles env
    · exact silent_reconciles env
    · exact runPipeline_reconciles txInstrs env

/-- C3 witness: at a concrete successful buy the refetch runs once, and at
a concrete signing failure it never runs and the error message is surfaced. -/
theorem pipeline_refetch_reconciliation_witness :
    (buyNftTransaction sampleMkt ⟨some "buyer1", true⟩
        (some (sampleData "seller1" [sampleListing "seller1"])) envOk).refetchCount = 1 ∧
    (buyNftTransaction sampleMkt ⟨some "buyer1", true⟩
        (some (sampleData "seller1" [sampleListing "seller1"]))
        ⟨.fail "user rejected", .ok, .ok⟩).refetchCount = 0 ∧
    (buyNftTransaction sampleMkt ⟨some "buyer1", true⟩
        (some (sampleData "seller1" [sampleListing "seller1"]))
        ⟨.fail "user rejected", .ok, .ok⟩).toasts = [.error "user rejected"] := by
  refine ⟨?_, ?_⟩
  · exact (pipeline_refetch_reconciliation sampleMkt ⟨some "buyer1", true⟩
      (some (sampleData "seller1" [sampleListing "seller1"])) envOk).1.1.mpr
      (by decide)
  · exact (pipeline_refetch_reconciliation sampleMkt ⟨some "buyer1", true⟩
      (some (sampleData "seller1" [sampleListing "seller1"]))
      ⟨.fail "user rejected", .ok, .ok⟩).1.2.2.1 "user rejected" (by decide) rfl

/-- C4: for every Buy attempt with the wallet connected, if no listing
exists for the marketplace auction house, or the viewer owns the NFT, or no
snapshot is loaded, the handler aborts silently: no instructions, no
signing, no submission, no re-fetch, no toast. -/
theorem buy_precondition_silent_abort (m : Mkt) (w : Wallet) (d : Option NftData)
    (env : Env) (pk : String)
    (hpk : w.publicKey = some pk) (hsig : w.hasSignTransaction = true)
    (h : pageListing m d = none ∨ pageIsOwner d w.publicKey = true ∨ d = none) :
    buyNftTransaction m w d env = Outcome.silent := by
  rcases w with ⟨wpk, wsig⟩
  have hpk2 : wpk = some pk := hpk
  have hsig2 : wsig = true := hsig
  subst hpk2 hsig2
  rcases h with h | h | h
  · rcases d with _ | data <;> simp [buyNftTransaction, h]
  · rcases d with _ | data
    · simp [buyNftTransaction, pageListing]
    · have h2 : pageIsOwner (some data) (some pk) = true := h
      rcases hl : pageListing m (some data) with _ | listing <;>
        simp [buyNftTransaction, hl, h2]
  · subst h
    simp [buyNftTransaction, pageListing]

/-- C4 witness: with no snapshot loaded the buy handler returns the silent
outcome. -/
theorem buy_precondition_silent_abort_witness :
    buyNftTransaction sampleMkt ⟨some "buyer1", true⟩ none envOk = Outcome.silent :=
  buy_precondition_silent_abort sampleMkt ⟨some "buyer1", true⟩ none envOk "buyer1"
    rfl rfl (Or.inr (Or.inr rfl))

/-- C7: for every Buy or Cancel attempt with the wallet capability missing
(no connected key or no signing function), the handler triggers the login
collaborator and does nothing else: no transaction, no signing, no
submission, no re-fetch, no toast. -/
theorem wallet_unavailable_triggers_login (m : Mkt) (w : Wallet) (d : Option NftData)
    (env : Env)
    (h : w.publicKey = none ∨ w.hasSignTransaction = false) :
    buyNftTransaction m w d env = Outcome.loginOnly ∧
    cancelListingTransaction m w d env = Outcome.loginOnly := by
  rcases w with ⟨wpk, wsig⟩
  rcases h with h | h
  · have h2 : wpk = none := h
    subst h2
    exact ⟨rfl, rfl⟩
  · have h2 : wsig = false := h
    subst h2
    rcases wpk with _ | pk <;> exact ⟨rfl, rfl⟩

/-- C7 witness: a disconnected wallet sends both handlers to the login
outcome. -/
theorem wallet_unavailable_triggers_login_witness :
    buyNftTransaction sampleMkt ⟨none, true⟩
      (some (sampleData "seller1" [sampleListing "seller1"])) envOk = Outcome.loginOnly ∧
    cancelListingTransaction sampleMkt ⟨none, true⟩
      (some (sampleData "seller1" [sampleListing "seller1"])) envOk = Outcome.loginOnly :=
  wallet_unavailable_triggers_login sampleMkt ⟨none, true⟩
    (some (sampleData "seller1" [sampleListing "seller1"])) envOk (Or.inl rfl)

/-- C5 counterexample: a viewer who owns the NFT but is not the listing
seller is NOT aborted by the cancel guard: the handler emits the two cancel
instructions and requests a signature, refuting the claim that cancel
aborts whenever the viewer address differs from the listing seller. The
code guard compares the viewer with the NFT owner, not with the seller. -/
theorem cancel_nonseller_proceeds_counterexample :
    ("viewer5" ≠ (sampleListing "other5").seller) ∧
    (cancelListingTransaction sampleMkt ⟨some "viewer5", true⟩
        (some (sampleData "viewer5" [sampleListing "other5"])) envOk).tx =
      some (cancelInstructions sampleMkt "viewer5"
        (sampleData "viewer5" [sampleListing "other5"]) (sampleListing "other5")) ∧
    (cancelInstructions sampleMkt "viewer5"
        (sampleData "viewer5" [sampleListing "other5"]) (sampleListing "other5")).length = 2 ∧
    (cancelListingTransaction sampleMkt ⟨some "viewer5", true⟩
        (some (sampleData "viewer5" [sampleListing "other5"])) envOk).signRequested = true := by
  refine ⟨by decide, ?_, rfl, ?_⟩ <;> rfl

/-- C5 amended: for every Cancel attempt with the wallet connected, if the
viewer wallet address is not equal to the snapshot owner address of the NFT
(the isOwner check of the page; this coincides with the seller check only
when the listing seller still owns the NFT), the handler aborts silently
with no instructions and no external call. -/
theorem cancel_guard_requires_owner (m : Mkt) (w : Wallet) (d : Option NftData)
    (env : Env) (pk : String)
    (hpk : w.publicKey = some pk) (hsig : w.hasSignTransaction = true)
    (hown : pageIsOwner d w.publicKey = false) :
    cancelListingTransaction m w d env = Outcome.silent := by
  rcases w with ⟨wpk, wsig⟩
  have hpk2 : wpk = some pk := hpk
  have hsig2 : wsig = true := hsig
  subst hpk2 hsig2
  rcases d with _ | data
  · simp [cancelListingTransaction, pageListing]
  · have h2 : pageIsOwner (some data) (some pk) = false := hown
    rcases hl : pageListing m (some data) with _ | listing <;>
      simp [cancelListingTransaction, hl, h2]

/-- C5 amended witness: a viewer who is not the snapshot owner is silently
aborted by the cancel handler. -/
theorem cancel_guard_requires_owner_witness :
    cancelListingTransaction sampleMkt ⟨some "stranger5", true⟩
      (some (sampleData "owner5" [sampleListing "owner5"])) envOk = Outcome.silent :=
  cancel_guard_requires_owner sampleMkt ⟨some "stranger5", true⟩
    (some (sampleData "owner5" [sampleListing "owner5"])) envOk "stranger5"
    rfl rfl (by decide)

/-- C6 counterexample: a viewer whose address equals the listing seller but
who is not the snapshot owner is NOT stopped by the buy guard: the handler
builds the four buy instructions and starts the pipeline, refuting the
claim that the buy handler returns an empty instruction list whenever the
viewer equals the seller. The code guard compares the viewer with the NFT
owner, not with the seller. -/
theorem buy_seller_not_owner_proceeds_counterexample :
    ("viewer6" = (sampleListing "viewer6").seller) ∧
    (buyNftTransaction sampleMkt ⟨some "viewer6", true⟩
        (some (sampleData "owner6" [sampleListing "viewer6"])) envOk).tx =
      some (buyInstructions sampleMkt "viewer6"
        (sampleData "owner6" [sampleListing "viewer6"]) (sampleListing "viewer6")) ∧
    (buyInstructions sampleMkt "viewer6"
        (sampleData "owner6" [sampleListing "viewer6"]) (sampleListing "viewer6")).length = 4 ∧
    (buyNftTransaction sampleMkt ⟨some "viewer6", true⟩
        (some (sampleData "owner6" [sampleListing "viewer6"])) envOk).signRequested = true := by
  refine ⟨rfl, ?_, rfl, ?_⟩ <;> rfl

/-- C6 amended: for a Buy attempt with the wallet connected and the
snapshot loaded, if the viewer wallet address equals the snapshot owner
address of the NFT (which equals the listing seller exactly when the seller
still owns the NFT), the handler aborts silently: no instructions and no
pipeline start. -/
theorem buy_owner_silent_abort (m : Mkt) (w : Wallet) (d : Option NftData)
    (env : Env) (pk : String) (data : NftData)
    (hpk : w.publicKey = some pk) (hsig : w.hasSignTransaction = true)
    (hd : d = some data) (hown : data.nft.owner.address = pk) :
    buyNftTransaction m w d env = Outcome.silent := by
  apply buy_precondition_silent_abort m w d env pk hpk hsig
  refine Or.inr (Or.inl ?_)
  subst hd
  rw [hpk]
  simp [pageIsOwner, hown]

/-- C6 amended witness: a viewer equal to the snapshot owner is silently
aborted by the buy handler. -/
theorem buy_owner_silent_abort_witness :
    buyNftTransaction sampleMkt ⟨some "owner6b", true⟩
      (some (sampleData "owner6b" [sampleListing "owner6b"])) envOk = Outcome.silent :=
  buy_owner_silent_abort sampleMkt ⟨some "owner6b", true⟩
    (some (sampleData "owner6b" [sampleListing "owner6b"])) envOk "owner6b"
    (sampleData "owner6b" [sampleListing "owner6b"]) rfl rfl rfl rfl

/-- C8 counterexample: with the same underlying error message, a submission
failure and a confirmation failure produce identical toast sequences, so
the confirmation failure is not surfaced distinctly from the submission
error: the code catches both in one block and emits the same error toast. -/
theorem confirm_submit_identical_surfacing_counterexample :
    (buyNftTransaction sampleMkt ⟨some "buyer8", true⟩
        (some (sampleData "seller8" [sampleListing "seller8"]))
        ⟨.ok, .fail "boom", .ok⟩).toasts =
      (buyNftTransaction sampleMkt ⟨some "buyer8", true⟩
        (some (sampleData "seller8" [sampleListing "seller8"]))
        ⟨.ok, .ok, .fail "boom"⟩).toasts ∧
    (buyNftTransaction sampleMkt ⟨some "buyer8", true⟩
        (some (sampleData "seller8" [sampleListing "seller8"]))
        ⟨.ok, .fail "boom", .ok⟩).toasts = [.info sendingMsg, .error "boom"] := by
  exact ⟨rfl, rfl⟩

/-- C8 amended: a signing failure is surfaced distinctly (a lone error
toast with no preceding sending toast, and the run stops before
submission), but a submission failure and a confirmation failure are
surfaced identically, as the sending toast followed by an error toast
carrying the underlying message: two distinguishable failure surfacings,
not three. -/
theorem failure_surfacing_two_classes (m : Mkt) (w : Wallet) (d : Option NftData)
    (pk : String) (data : NftData) (listing : Listing) (msg : String)
    (envSign envSend envConfirm : Env)
    (hpk : w.publicKey = some pk) (hsig : w.hasSignTransaction = true)
    (hd : d = some data) (hl : pageListing m d = some listing)
    (hown : pageIsOwner d w.publicKey = false)
    (h1 : envSign.signResult = .fail msg)
    (h2a : envSend.signResult = .ok) (h2b : envSend.sendResult = .fail msg)
    (h3a : envConfirm.signResult = .ok) (h3b : envConfirm.sendResult = .ok)
    (h3c : envConfirm.confirmResult = .fail msg) :
    (buyNftTransaction m w d envSign).toasts = [.error msg] ∧
    (buyNftTransaction m w d envSend).toasts = [.info sendingMsg, .error msg] ∧
    (buyNftTransaction m w d envConfirm).toasts =
      (buyNftTransaction m w d envSend).toasts ∧
    (buyNftTransaction m w d envSign).toasts ≠
      (buyNftTransaction m w d envSend).toasts := by
  rw [buy_run_of_guards m w d envSign pk data listing hpk hsig hd hl hown,
    buy_run_of_guards m w d envSend pk data listing hpk hsig hd hl hown,
    buy_run_of_guards m w d envConfirm pk data listing hpk hsig hd hl hown]
  rcases envSign with ⟨s1, s2, s3⟩
  rcases envSend with ⟨t1, t2, t3⟩
  rcases envConfirm with ⟨u1, u2, u3⟩
  simp only at h1 h2a h2b h3a h3b h3c
  subst h1 h2a h2b h3a h3b h3c
  refine ⟨rfl, rfl, rfl, by simp [runPipeline]⟩

/-- C8 amended witness: the three failure environments at a concrete buy
attempt, showing the two surfacing classes. -/
theorem failure_surfacing_two_classes_witness :
    (buyNftTransaction sampleMkt ⟨some "buyer8", true⟩
        (some (sampleData "seller8" [sampleListing "seller8"]))
        ⟨.fail "boom", .ok, .ok⟩).toasts = [.error "boom"] ∧
    (buyNftTransaction sampleMkt ⟨some "buyer8", true⟩
        (some (sampleData "seller8" [sampleListing "seller8"]))
        ⟨.ok, .fail "boom", .ok⟩).toasts = [.info sendingMsg, .error "boom"] :=
  ⟨(failure_surfacing_two_classes sampleMkt ⟨some "buyer8", true⟩
      (some (sampleData "seller8" [sampleListing "seller8"])) "buyer8"
      (sampleData "seller8" [sampleListing "seller8"]) (sampleListing "seller8") "boom"
      ⟨.fail "boom", .ok, .ok⟩ ⟨.ok, .fail "boom", .ok⟩ ⟨.ok, .ok, .fail "boom"⟩
      rfl rfl rfl (by decide) (by decide) rfl rfl rfl rfl rfl rfl).1,
   (failure_surfacing_two_classes sampleMkt ⟨some "buyer8", true⟩
      (some (sampleData "seller8" [sampleListing "seller8"])) "buyer8"
      (sampleData "seller8" [sampleListing "seller8"]) (sampleListing "seller8") "boom"
      ⟨.fail "boom", .ok, .ok⟩ ⟨.ok, .fail "boom", .ok⟩ ⟨.ok, .ok, .fail "boom"⟩
      rfl rfl rfl (by decide) (by decide) rfl rfl rfl rfl rfl rfl).2.1⟩

/-- C9: address derivation is deterministic: for fixed inputs every
derivation function of the embedding, and the full address-resolution step
of a buy attempt, returns the same address and bump pair on every call;
derivation is a pure function of the listed inputs with no hidden state. -/
theorem derivation_deterministic :
    (∀ tm, findMetadataAccount tm = findMetadataAccount tm) ∧
    (∀ ah w, findEscrowPaymentAccountAddress ah w = findEscrowPaymentAccountAddress ah w) ∧
    (∀ w ah tm mint p t, findPublicBidTradeStateAddress w ah tm mint p t =
      findPublicBidTradeStateAddress w ah tm mint p t) ∧
    (∀ w ah ta tm mint p t, findTradeStateAddress w ah ta tm mint p t =
      findTradeStateAddress w ah ta tm mint p t) ∧
    (findAuctionHouseProgramAsSignerAddress = findAuctionHouseProgramAsSignerAddress) ∧
    (∀ tm w, findAssociatedTokenAccountAddress tm w = findAssociatedTokenAccountAddress tm w) ∧
    (∀ ts, findBidReceiptAddress ts = findBidReceiptAddress ts) ∧
    (∀ s b, findPurchaseReceiptAddress s b = findPurchaseReceiptAddress s b) ∧
    (∀ m pk data listing, buyCtx m pk data listing = buyCtx m pk data listing) :=
  ⟨fun _ => rfl, fun _ _ => rfl, fun _ _ _ _ _ _ => rfl, fun _ _ _ _ _ _ _ => rfl,
   rfl, fun _ _ => rfl, fun _ => rfl, fun _ _ => rfl, fun _ _ _ _ => rfl⟩

/-- C10: the trade state passed to the cancel instruction is freshly
derived from the viewer wallet key, the auction house, the owner
associated token account, the treasury mint, the token mint, the listing
price, and token size one; the stored tradeState field of the listing is
never read (changing it leaves the built instructions unchanged); and the
derived address coincides with the one derived from the seller key exactly
when the viewer is the seller. -/
theorem cancel_trade_state_from_viewer_key (m : Mkt) (pk : String) (data : NftData)
    (listing : Listing) :
    (cancelInstructionAccounts m pk data listing).tradeState =
      (findTradeStateAddress (.raw pk) (.raw m.auctionHouse.address)
        (.raw data.nft.owner.associatedTokenAccountAddress)
        (.raw m.auctionHouse.treasuryMint) (.raw data.nft.mintAddress)
        listing.price 1).1 ∧
    (∀ ts, cancelInstructions m pk data { listing with tradeState := ts } =
      cancelInstructions m pk data listing) ∧
    ((findTradeStateAddress (.raw pk) (.raw m.auctionHouse.address)
        (.raw data.nft.owner.associatedTokenAccountAddress)
        (.raw m.auctionHouse.treasuryMint) (.raw data.nft.mintAddress)
        listing.price 1).1 =
      (findTradeStateAddress (.raw listing.seller) (.raw m.auctionHouse.address)
        (.raw data.nft.owner.associatedTokenAccountAddress)
        (.raw m.auctionHouse.treasuryMint) (.raw data.nft.mintAddress)
        listing.price 1).1 ↔ pk = listing.seller) := by
  refine ⟨rfl, fun ts => rfl, ?_⟩
  simp [findTradeStateAddress]

end Marketplace
